import Mathlib

/-!
Verification of the hybrid command adapter module
(`discord/ext/commands/hybrid.py`).

The module bridges a text-prefix command system and a structured
(application/slash) command system: one wrapper object owns a user callback
and a mirrored adapter object registered with the structured system.  We give
a shallow embedding of the pure decision logic of that module:

* the ordered permission-check chain of `HybridAppCommand._check_can_run`;
* the exception classification of `HybridAppCommand._invoke_with_namespace`;
* the registration / removal logic of `HybridGroup.add_command` and
  `HybridGroup.remove_command` over the two mirrored maps;
* the parameter-replacement logic of `replace_parameters` and
  `is_converter`, and the error wrapping of `make_converter_transformer`;
* the name/description mirroring of `HybridAppCommand.__init__` and
  `HybridGroup.__init__`, and the `cog` setter of `HybridCommand`.

Python dictionaries are modelled as association lists with unique keys
(`List (String × α)` built only by fresh appends and key erasure); Python
exceptions become inductive outcome types; awaited boolean checks become
`Bool` fields of an environment record, since each check is a black-box
collaborator whose only observable here is its boolean verdict.
-/

namespace Hybrid

/-! ### Section 1: the permission check chain, `HybridAppCommand._check_can_run`

The source runs, in order: the global one-time bot check, the global bot
check, the parent interaction check (when a parent exists and is not the
binding), the binding interaction check (when the binding has one), the
binding overridden local check (when overridden), the adapter checks
(`self.checks`), and the wrapper checks (`self.wrapped.checks`), returning
`False` at the first failure and `True` at the end. -/

/-- The seven check points of the chain, in source order. -/
inductive CheckStage where
  | globalOnce
  | globalCheck
  | parentInteraction
  | bindingInteraction
  | bindingLocal
  | adapterChecks
  | wrapperChecks
deriving DecidableEq, Repr

/-- Environment of one structured-path invocation: every collaborator that
`_check_can_run` consults, reduced to its observable boolean verdict.
`parent` and `binding` carry object identities (Python `is` comparison);
`bindingHasInteractionCheck` models the `AttributeError` probe;
`bindingLocalCheck` is `none` when `Cog._get_overridden_method` returns
`None`; the two lists are the verdicts of `self.checks` and
`self.wrapped.checks`. -/
structure CheckEnv where
  botCanRunOnce : Bool
  botCanRun : Bool
  parent : Option Nat
  binding : Option Nat
  parentInteractionCheck : Bool
  bindingHasInteractionCheck : Bool
  bindingInteractionCheck : Bool
  bindingLocalCheck : Option Bool
  adapterChecks : List Bool
  wrapperChecks : List Bool
deriving DecidableEq, Repr

/-- Guard of the parent check: `self.parent is not None and self.parent is
not self.binding` (line 158). -/
def parentCheckApplicable (e : CheckEnv) : Bool :=
  e.parent.isSome && e.parent != e.binding

/-- Guard of the binding interaction check: binding present (line 167) and
the `interaction_check` attribute retrieval does not raise (lines 168-172). -/
def bindingIcApplicable (e : CheckEnv) : Bool :=
  e.binding.isSome && e.bindingHasInteractionCheck

/-- Guard of the binding local check: binding present and
`Cog._get_overridden_method(self.binding.cog_check)` is not `None`
(lines 178-179). -/
def bindingLocalApplicable (e : CheckEnv) : Bool :=
  e.binding.isSome && e.bindingLocalCheck.isSome

/-- Truthiness of `self.checks` (line 184): the adapter check stage runs
only when the list is nonempty. -/
def adapterChecksApplicable (e : CheckEnv) : Bool :=
  !e.adapterChecks.isEmpty

/-- `async_all(f(interaction) for f in self.checks)` (line 184): all
verdicts true. -/
def adapterChecksPass (e : CheckEnv) : Bool :=
  e.adapterChecks.all id

/-- Truthiness of `self.wrapped.checks` (line 187). -/
def wrapperChecksApplicable (e : CheckEnv) : Bool :=
  !e.wrapperChecks.isEmpty

/-- `async_all(f(ctx) for f in self.wrapped.checks)` (line 187). -/
def wrapperChecksPass (e : CheckEnv) : Bool :=
  e.wrapperChecks.all id

/-- Direct transliteration of `HybridAppCommand._check_can_run`
(hybrid.py lines 139-190): nested early returns, one per check point.
`async_all` over a generator of check verdicts is `List.all`; the guard
`self.checks and not await async_all(...)` is nonempty-and-not-all. -/
def check_can_run (e : CheckEnv) : Bool :=
  if !e.botCanRunOnce then false
  else if !e.botCanRun then false
  else if parentCheckApplicable e && !e.parentInteractionCheck then false
  else if bindingIcApplicable e && !e.bindingInteractionCheck then false
  else if bindingLocalApplicable e && !(e.bindingLocalCheck.getD true) then false
  else if adapterChecksApplicable e && !(adapterChecksPass e) then false
  else if wrapperChecksApplicable e && !(wrapperChecksPass e) then false
  else true

/-- One entry of the ordered chain: which check point it is, whether the
source would invoke it at all in this environment, and whether it passes. -/
structure StageSpec where
  stage : CheckStage
  applicable : Bool
  passes : Bool
deriving DecidableEq, Repr

/-- The chain of `_check_can_run` in its fixed source order, with each
check point paired with its applicability condition and verdict, read off
the same environment fields as `check_can_run`. -/
def stageTable (e : CheckEnv) : List StageSpec :=
  [ ⟨.globalOnce, true, e.botCanRunOnce⟩,
    ⟨.globalCheck, true, e.botCanRun⟩,
    ⟨.parentInteraction, parentCheckApplicable e, e.parentInteractionCheck⟩,
    ⟨.bindingInteraction, bindingIcApplicable e, e.bindingInteractionCheck⟩,
    ⟨.bindingLocal, bindingLocalApplicable e, e.bindingLocalCheck.getD true⟩,
    ⟨.adapterChecks, adapterChecksApplicable e, adapterChecksPass e⟩,
    ⟨.wrapperChecks, wrapperChecksApplicable e, wrapperChecksPass e⟩ ]

/-- Generic short-circuiting runner over an ordered chain of checks: skips
inapplicable stages, records each invoked stage in order, and stops at the
first applicable stage that fails, returning `false` there. -/
def runChain : List StageSpec → Bool × List CheckStage
  | [] => (true, [])
  | s :: rest =>
    if s.applicable then
      if s.passes then
        let r := runChain rest
        (r.1, s.stage :: r.2)
      else (false, [s.stage])
    else runChain rest

/-- A concrete environment in which the first two global checks pass and
the parent interaction check is applicable and fails. -/
def envParentFail : CheckEnv :=
  { botCanRunOnce := true
    botCanRun := true
    parent := some 1
    binding := none
    parentInteractionCheck := false
    bindingHasInteractionCheck := false
    bindingInteractionCheck := false
    bindingLocalCheck := none
    adapterChecks := [true]
    wrapperChecks := [] }

/-! ### Section 2: exception classification, `HybridAppCommand._invoke_with_namespace`

Lines 192-220: the body runs `self.wrapped.prepare(ctx)` and
`self._do_call(ctx, ctx.kwargs)` inside a `try`.  The except clauses, in
source order: `app_commands.CommandSignatureMismatch` is re-raised;
`app_commands.TransformerError` is unwrapped to its `__cause__` when that
cause is a `CommandError`, else wrapped into `HybridCommandError` with
`__cause__` set to the original; any other `app_commands.AppCommandError`
is wrapped the same way; a `CommandError` is kept as is.  Every non-re-raised
error is then passed to `self.wrapped.dispatch_error(ctx, exc)`. -/

/-- The `__cause__` slot of a `TransformerError`: a `CommandError`, some
other exception, or `None`.  Tags stand for exception identity. -/
inductive TransformerCause where
  | commandError (tag : Nat)
  | otherExc (tag : Nat)
  | noCause
deriving DecidableEq, Repr

/-- An exception escaping `prepare`/`_do_call`, labelled by the first
except clause of the source that matches it (Python `except` dispatch picks
the first matching clause, so the four classes are disjoint here). -/
inductive RaisedExc where
  | commandSignatureMismatch
  | transformerError (cause : TransformerCause)
  | appCommandError (tag : Nat)
  | commandError (tag : Nat)
deriving DecidableEq, Repr

/-- The error value bound to `exc` before dispatch: either a `CommandError`
kept unchanged, or a `HybridCommandError`; the latter records both the
wrapped original (`HybridCommandError(e)`, line 212/215) and the explicit
`exc.__cause__ = e` assignment (line 213/216) as two fields. -/
inductive HandledErr where
  | commandError (tag : Nat)
  | hybridCommandError (original : RaisedExc) (cause : RaisedExc)
deriving DecidableEq, Repr

/-- Outcome of the guarded body: normal return value or a raised exception. -/
inductive CallOutcome where
  | success (v : Nat)
  | raised (e : RaisedExc)
deriving DecidableEq, Repr

/-- Observable result of `_invoke_with_namespace`: the value returned to the
structured caller, an exception re-raised to it, or an error handed to
`self.wrapped.dispatch_error` (after which the function returns `None`). -/
inductive InvokeResult where
  | returned (v : Nat)
  | reraised (e : RaisedExc)
  | dispatched (e : HandledErr)
deriving DecidableEq, Repr

/-- Transliteration of the `try`/`except` chain of
`HybridAppCommand._invoke_with_namespace` (lines 201-220). -/
def invoke_with_namespace (o : CallOutcome) : InvokeResult :=
  match o with
  | .success v => .returned v
  | .raised .commandSignatureMismatch => .reraised .commandSignatureMismatch
  | .raised (.transformerError cause) =>
    match cause with
    | .commandError t => .dispatched (.commandError t)
    | c => .dispatched (.hybridCommandError (.transformerError c) (.transformerError c))
  | .raised (.appCommandError t) =>
      .dispatched (.hybridCommandError (.appCommandError t) (.appCommandError t))
  | .raised (.commandError t) => .dispatched (.commandError t)

/-! ### Section 3: group registration, `HybridGroup.add_command` / `remove_command`

`HybridGroup` keeps two mirrored maps: the wrapper-side dict
`self.all_commands` (inherited from `GroupMixin`, keyed by name and by each
alias) and the structured-side children of `self.app_command` (keyed by
name only).  `add_command` (lines 306-342) rejects non-hybrid children,
rejects nesting a group under a group that itself has a parent, mirrors the
adapter into the structured side, then inserts the name and each alias on
the wrapper side, raising `CommandRegistrationError` on a duplicate; on an
alias conflict it first removes the just-added name via `remove_command`.
`remove_command` (lines 344-347) pops the wrapper entry via the inherited
method and the structured-side child by the same name.

`GroupMixin` and `app_commands.Group` live outside src, so their three
primitives are modelled from the spec where noted. -/

/-- A child hybrid command or group wrapper, as far as registration is
concerned: its object identity, name, aliases, and whether it is a group. -/
structure HCmd where
  id : Nat
  name : String
  aliases : List String
  isGroup : Bool
deriving DecidableEq, Repr

/-- Registration state of one `HybridGroup`: whether the group itself has a
parent (`self.parent is not None`), the wrapper-side dict
`self.all_commands` (insertion-ordered, unique keys), and the
structured-side children of `self.app_command`, keyed by name, each child
identified by the id of the wrapper it mirrors. -/
structure GroupState where
  hasParent : Bool
  all_commands : List (String × HCmd)
  appChildren : List (String × Nat)
deriving DecidableEq, Repr

/-- Erasure of a key from a dict modelled as an association list.  Dict
keys are unique, so dropping every pair with the key equals `dict.pop`. -/
def dictErase {α : Type} (d : List (String × α)) (k : String) : List (String × α) :=
  d.filter (fun p => p.1 != k)

/-- Modelled from the spec: `app_commands.Group.add_command`, the
structured command-registration tree collaborator (outside src).  The spec
has it register the adapter into the tree keyed by name with unique keys
per group, so a taken name is rejected and a fresh one is appended. -/
def appGroup_add (children : List (String × Nat)) (k : String) (v : Nat) :
    Except Unit (List (String × Nat)) :=
  if (children.lookup k).isSome then .error () else .ok (children ++ [(k, v)])

/-- Modelled from the spec: `app_commands.Group.remove_command` (outside
src) pops the named child from the structured-side children map. -/
def appGroup_remove (children : List (String × Nat)) (k : String) : List (String × Nat) :=
  dictErase children k

/-- Modelled from the spec: `GroupMixin.remove_command` (core.py, outside
src).  The spec says removing a name takes the wrapper entry out of the
command mapping and returns it; a missing name yields `None`. -/
def super_remove_command (d : List (String × HCmd)) (k : String) :
    Option HCmd × List (String × HCmd) :=
  (d.lookup k, dictErase d k)

/-- Transliteration of `HybridGroup.remove_command` (lines 344-347):
`cmd = super().remove_command(name)`, then
`self.app_command.remove_command(name)`, then return `cmd`. -/
def remove_command (g : GroupState) (k : String) : Option HCmd × GroupState :=
  let r := super_remove_command g.all_commands k
  (r.1,
   { hasParent := g.hasParent
     all_commands := r.2
     appChildren := appGroup_remove g.appChildren k })

/-- The errors `add_command` can raise: the `ValueError` for too-deep
nesting (line 329), the structured-side already-registered error
propagating out of line 331, the `CommandRegistrationError` for a
duplicate name (line 335) and its alias variant (line 341). -/
inductive AddErr where
  | tooNested
  | appAlreadyRegistered (name : String)
  | registrationConflict (name : String)
  | aliasConflict (name : String)
deriving DecidableEq, Repr

/-- The alias loop of `add_command` (lines 338-342): each alias is checked
against the dict and appended (the append is a dict insert of a fresh key,
the branch having ruled the key present out); on a conflict the just-added
name is removed on both sides via `remove_command` and the alias variant of
the registration error is raised, the mutations so far staying in place. -/
def addAliases (g : GroupState) (c : HCmd) : List String → Option AddErr × GroupState
  | [] => (none, g)
  | a :: rest =>
    if (g.all_commands.lookup a).isSome then
      (some (.aliasConflict a), (remove_command g c.name).2)
    else
      addAliases
        { hasParent := g.hasParent
          all_commands := g.all_commands ++ [(a, c)]
          appChildren := g.appChildren } c rest

/-- Transliteration of `HybridGroup.add_command` (lines 306-342).  The
`isinstance` gate of line 325 is outside the model: every `HCmd` already
stands for a hybrid command or group.  Line 332 (`command.parent = self`)
mutates the child, not the group, and the claims here are about the group
state.  A raised error leaves the mutations made before it in place, so the
result carries the error alongside the state. -/
def add_command (g : GroupState) (c : HCmd) : Option AddErr × GroupState :=
  if c.isGroup && g.hasParent then (some .tooNested, g)
  else
    match appGroup_add g.appChildren c.name c.id with
    | .error _ => (some (.appAlreadyRegistered c.name), g)
    | .ok app1 =>
      let g1 : GroupState :=
        { hasParent := g.hasParent, all_commands := g.all_commands, appChildren := app1 }
      if (g1.all_commands.lookup c.name).isSome then
        (some (.registrationConflict c.name), g1)
      else
        addAliases
          { hasParent := g1.hasParent
            all_commands := g1.all_commands ++ [(c.name, c)]
            appChildren := g1.appChildren } c c.aliases

/-- A populated group used as concrete input: no parent, one registered
command named x with alias y, mirrored on the structured side under x. -/
def groupWithAlias : GroupState :=
  { hasParent := false
    all_commands := [("x", ⟨1, "x", ["y"], false⟩), ("y", ⟨1, "x", ["y"], false⟩)]
    appChildren := [("x", 1)] }

/-- A command whose name collides with the registered alias y. -/
def cmdNamedY : HCmd := ⟨2, "y", [], false⟩

/-- A group with one registered command named z. -/
def groupWithZ : GroupState :=
  { hasParent := false
    all_commands := [("z", ⟨3, "z", [], false⟩)]
    appChildren := [("z", 3)] }

/-- A command named w carrying the conflicting alias z. -/
def cmdAliasZ : HCmd := ⟨4, "w", ["z"], false⟩

/-! ### Section 4: converter recognition, replacement and transformation

`is_converter` (lines 84-85) probes a parameter converter;
`replace_parameters` (lines 106-113) swaps the signature annotation of
each recognized converter parameter for a transformer synthesized by
`make_converter_transformer` (lines 88-103), whose `transform` classmethod
calls the underlying `convert` helper and classifies its exceptions. -/

/-- A Python object as probed by this module: whether it is a class,
whether as a class it subclasses `Converter`, whether it is a `Converter`
instance, and whether it carries the
`__discord_app_commands_transformer__` attribute; `id` is its identity. -/
structure PyObj where
  id : Nat
  isClass : Bool
  subclassOfConverter : Bool
  instanceOfConverter : Bool
  hasTransformerAttr : Bool
deriving DecidableEq, Repr

/-- Transliteration of `is_converter` (lines 84-85). -/
def is_converter (o : PyObj) : Bool :=
  (o.isClass && o.subclassOfConverter) || o.instanceOfConverter

/-- An annotation slot of one signature parameter: its original value, or
the transformer synthesized from a converter object. -/
inductive Ann where
  | orig (tag : Nat)
  | converterTransformer (conv : PyObj)
deriving DecidableEq, Repr

/-- `params[name] = params[name].replace(...)` on a dict: the entry keyed
`k` keeps its position and gets the new annotation slot. -/
def dictReplace (d : List (String × Ann)) (k : String) (a : Ann) : List (String × Ann) :=
  d.map (fun p => if p.1 = k then (p.1, a) else p)

/-- Transliteration of `replace_parameters` (lines 106-113): fold over the
command parameter dict; each parameter whose converter is recognized and
lacks the transformer attribute has the annotation of the same-named
signature entry replaced by a synthesized transformer; the signature
entries come back in their original order. -/
def replace_parameters (parameters : List (String × PyObj)) (sig : List (String × Ann)) :
    List (String × Ann) :=
  parameters.foldl
    (fun params np =>
      if is_converter np.2 && !np.2.hasTransformerAttr then
        dictReplace params np.1 (.converterTransformer np.2)
      else params)
    sig

/-- The effect of one command parameter on one signature entry, used to
express the fold as a per-entry map. -/
def stepEntry (np : String × PyObj) (p : String × Ann) : String × Ann :=
  if is_converter np.2 && !np.2.hasTransformerAttr then
    (if p.1 = np.1 then (p.1, Ann.converterTransformer np.2) else p)
  else p

/-- Specification of parameter replacement in the words of the spec: an
entry is swapped for a synthesized transformer exactly when its converter
is recognized as a conversion helper and does not already declare a
structured-system equivalent; every other entry is untouched. -/
def replaceParamSpec (parameters : List (String × PyObj)) (p : String × Ann) : String × Ann :=
  match parameters.lookup p.1 with
  | some conv =>
    if is_converter conv && !conv.hasTransformerAttr then
      (p.1, Ann.converterTransformer conv)
    else p
  | none => p

/-- The spec-side replacement: each signature entry mapped independently. -/
def replace_parameters_spec (parameters : List (String × PyObj)) (sig : List (String × Ann)) :
    List (String × Ann) :=
  sig.map (replaceParamSpec parameters)

/-- The result of awaiting the underlying `convert` helper of a converter:
a value, a raised `CommandError`, or any other exception. -/
inductive ConvOutcome where
  | ok (v : Nat)
  | commandErrorExc (tag : Nat)
  | otherExc (tag : Nat)
deriving DecidableEq, Repr

/-- A converter together with the behavior of its `convert` helper.
`convertIsMethod` selects between the classmethod call and the
instantiate-then-call of lines 92-95; every call path awaits the same
underlying helper. -/
structure ConvModel where
  obj : PyObj
  convertIsMethod : Bool
  convertResult : ConvOutcome
deriving DecidableEq, Repr

/-- Observable result of the synthesized `transform`: a returned value
(`none` for the implicit `return None` fallthrough when the object matches
no branch), a `CommandError` propagating unchanged (line 98-99), or a
`ConversionError(converter, exc)` raised `from exc` (lines 100-101),
carrying the original converter and the original exception as cause. -/
inductive TransformResult where
  | ok (v : Option Nat)
  | commandError (tag : Nat)
  | conversionError (converter : PyObj) (cause : Nat)
deriving DecidableEq, Repr

/-- The `try`/`except` of lines 90-101 around one helper call:
`CommandError` is re-raised as is, anything else becomes a
`ConversionError` with the original exception as cause. -/
def convertHandle (c : ConvModel) : ConvOutcome → TransformResult
  | .ok v => .ok (some v)
  | .commandErrorExc t => .commandError t
  | .otherExc t => .conversionError c.obj t

/-- Transliteration of the `transform` closure synthesized by
`make_converter_transformer` (lines 88-103): the converter-class branch
(classmethod `convert`, or instantiation then `convert`) and the
converter-instance branch all await the underlying helper; an object
matching no branch falls through to `return None`. -/
def transform (c : ConvModel) : TransformResult :=
  if c.obj.isClass && c.obj.subclassOfConverter then
    if c.convertIsMethod then convertHandle c c.convertResult
    else convertHandle c c.convertResult
  else if c.obj.instanceOfConverter then convertHandle c c.convertResult
  else .ok none

/-! ### Section 5: wrapper/adapter attribute mirroring

`HybridAppCommand.__init__` (lines 116-132) copies `name` and
`description or short_doc or placeholder` from the wrapper and sets
`self.binding = wrapped.cog`; `HybridGroup.__init__` (lines 287-304) does
the same for its `app_commands.Group`; the `cog` setter of `HybridCommand`
(lines 252-255) reassigns `self._cog` and `self.app_command.binding`
together. -/

/-- Python `or` on strings: the left operand unless it is empty (falsy). -/
def pyOrStr (a b : String) : String := if a.isEmpty then b else a

/-- The wrapper attributes consulted when its adapter is created. -/
structure WrapperAttrs where
  name : String
  description : String
  short_doc : String
deriving DecidableEq, Repr

/-- Adapter attributes set by `HybridAppCommand.__init__`: name and
description copied from the wrapper, and the binding initialised to the
wrapper cog (line 132). -/
structure AdapterAttrs where
  name : String
  description : String
  binding : Option Nat
deriving DecidableEq, Repr

/-- Adapter attributes set by `HybridGroup.__init__` for its
`app_commands.Group` (lines 297-301); the group adapter has no binding
field (guild ids are also forwarded there; no claim is about them). -/
structure GroupAdapterAttrs where
  name : String
  description : String
deriving DecidableEq, Repr

/-- `HybridAppCommand.__init__` (lines 122-132): `name=wrapped.name`,
`description=wrapped.description or wrapped.short_doc or placeholder`,
then `self.binding = wrapped.cog`. -/
def hybridAppCommandInit (w : WrapperAttrs) (cog : Option Nat) : AdapterAttrs :=
  { name := w.name
    description := pyOrStr w.description (pyOrStr w.short_doc "…")
    binding := cog }

/-- `HybridGroup.__init__` adapter construction (lines 297-301):
`name=self.name`, `description=self.description or self.short_doc or
placeholder`. -/
def hybridGroupAppInit (w : WrapperAttrs) : GroupAdapterAttrs :=
  { name := w.name
    description := pyOrStr w.description (pyOrStr w.short_doc "…") }

/-- The two fields coupled by the `cog` property of `HybridCommand`:
`self._cog` on the wrapper and `self.app_command.binding` on the adapter. -/
structure CogPair where
  cog : Option Nat
  binding : Option Nat
deriving DecidableEq, Repr

/-- Wrapper construction: `HybridCommand.__init__` builds the adapter,
whose `__init__` ends with `self.binding = wrapped.cog` (line 132). -/
def hybridCommandInit (cog : Option Nat) : CogPair :=
  { cog := cog, binding := cog }

/-- The `cog` setter (lines 252-255): one assignment updates `self._cog`
and `self.app_command.binding` together; it is the only mutation of either
field in the module after construction. -/
def cogSet (_s : CogPair) (v : Option Nat) : CogPair :=
  { cog := v, binding := v }

end Hybrid

namespace Hybrid

/-! ### Helper lemmas -/

theorem lookup_dictErase {α : Type} (d : List (String × α)) (k : String) :
    (dictErase d k).lookup k = none := by
  induction d with
  | nil => rfl
  | cons p rest ih =>
    simp only [dictErase, List.filter_cons] at ih ⊢
    by_cases h : p.1 = k
    · simp [h, ih]
    · have hb : (p.1 != k) = true := by simpa using h
      have hk : (k == p.1) = false := by
        simpa using fun hkp => h hkp.symm
      simp [hb, List.lookup, hk, ih]

theorem lookup_append_single {α : Type} (d : List (String × α)) (k : String) (v : α)
    (h : d.lookup k = none) : (d ++ [(k, v)]).lookup k = some v := by
  induction d with
  | nil => simp [List.lookup]
  | cons p rest ih =>
    obtain ⟨pk, pv⟩ := p
    simp only [List.cons_append, List.lookup] at h ⊢
    cases hk : (k == pk) with
    | false => simp only [hk] at h ⊢; exact ih h
    | true => simp only [hk] at h; exact Option.noConfusion h

theorem appGroup_add_ok (children : List (String × Nat)) (k : String) (v : Nat)
    (x : List (String × Nat)) (h : appGroup_add children k v = .ok x) :
    children.lookup k = none ∧ x = children ++ [(k, v)] := by
  by_cases hs : (children.lookup k).isSome
  · simp [appGroup_add, hs] at h
  · refine ⟨Option.not_isSome_iff_eq_none.mp hs, ?_⟩
    simp [appGroup_add, hs] at h
    exact h.symm

theorem runChain_fst (l : List StageSpec) :
    (runChain l).1 = l.all (fun s => !s.applicable || s.passes) := by
  induction l with
  | nil => rfl
  | cons s rest ih =>
    simp only [runChain, List.all_cons]
    cases ha : s.applicable <;> cases hp : s.passes <;> simp [ih]

theorem runChain_all_pass (l : List StageSpec)
    (h : ∀ s ∈ l, s.applicable = true → s.passes = true) :
    runChain l = (true, (l.filter (fun s => s.applicable)).map (fun s => s.stage)) := by
  induction l with
  | nil => rfl
  | cons s rest ih =>
    have hrest : ∀ t ∈ rest, t.applicable = true → t.passes = true := by
      intro t ht; exact h t (List.mem_cons_of_mem s ht)
    simp only [runChain, List.filter_cons]
    cases ha : s.applicable with
    | false => simpa using ih hrest
    | true =>
      have hp : s.passes = true := h s (List.mem_cons_self s rest) ha
      simp [hp, ih hrest]

theorem runChain_first_fail (l₁ : List StageSpec) (s : StageSpec) (l₂ : List StageSpec)
    (hpre : ∀ t ∈ l₁, t.applicable = true → t.passes = true)
    (ha : s.applicable = true) (hp : s.passes = false) :
    runChain (l₁ ++ s :: l₂) =
      (false, (l₁.filter (fun t => t.applicable)).map (fun t => t.stage) ++ [s.stage]) := by
  induction l₁ with
  | nil => simp [runChain, ha, hp]
  | cons t rest ih =>
    have hrest : ∀ u ∈ rest, u.applicable = true → u.passes = true := by
      intro u hu; exact hpre u (List.mem_cons_of_mem t hu)
    have ihr := ih hrest
    simp only [List.cons_append, runChain, List.filter_cons]
    cases hta : t.applicable with
    | false => simpa using ihr
    | true =>
      have htp : t.passes = true := hpre t (List.mem_cons_self t rest) hta
      simp [htp, ihr]

theorem addAliases_error (as : List String) (g : GroupState) (c : HCmd) (e : AddErr)
    (h : (addAliases g c as).1 = some e) :
    (∃ a, e = AddErr.aliasConflict a) ∧
    (addAliases g c as).2.all_commands.lookup c.name = none ∧
    (addAliases g c as).2.appChildren.lookup c.name = none := by
  induction as generalizing g with
  | nil => exact Option.noConfusion h
  | cons a rest ih =>
    simp only [addAliases] at h ⊢
    by_cases hc : (g.all_commands.lookup a).isSome
    · simp only [if_pos hc] at h ⊢
      refine ⟨⟨a, (Option.some.inj h).symm⟩, ?_, ?_⟩
      · simp [remove_command, super_remove_command, lookup_dictErase]
      · simp [remove_command, appGroup_remove, lookup_dictErase]
    · simp only [if_neg hc] at h ⊢
      exact ih _ h

theorem check_can_run_eq_runChain (e : CheckEnv) :
    check_can_run e = (runChain (stageTable e)).1 := by
  rw [runChain_fst]
  simp only [check_can_run, stageTable, List.all_cons, List.all_nil]
  generalize e.botCanRunOnce = A
  generalize e.botCanRun = B
  generalize parentCheckApplicable e = C
  generalize e.parentInteractionCheck = D
  generalize bindingIcApplicable e = E
  generalize e.bindingInteractionCheck = F
  generalize bindingLocalApplicable e = G
  generalize e.bindingLocalCheck.getD true = H
  generalize adapterChecksApplicable e = I
  generalize adapterChecksPass e = J
  generalize wrapperChecksApplicable e = K
  generalize wrapperChecksPass e = L
  revert A B C D E F G H I J K L
  decide

theorem replace_parameters_cons (np : String × PyObj) (ps : List (String × PyObj))
    (sig : List (String × Ann)) :
    replace_parameters (np :: ps) sig =
      replace_parameters ps
        (if is_converter np.2 && !np.2.hasTransformerAttr then
          dictReplace sig np.1 (.converterTransformer np.2)
         else sig) := rfl

theorem replace_parameters_as_map (ps : List (String × PyObj)) (sig : List (String × Ann)) :
    replace_parameters ps sig =
      sig.map (fun p => ps.foldl (fun r np => stepEntry np r) p) := by
  induction ps generalizing sig with
  | nil => simp [replace_parameters]
  | cons np rest ih =>
    have hone :
        (if is_converter np.2 && !np.2.hasTransformerAttr then
          dictReplace sig np.1 (.converterTransformer np.2)
         else sig) = sig.map (stepEntry np) := by
      by_cases hc : (is_converter np.2 && !np.2.hasTransformerAttr) = true
      · rw [if_pos hc]
        unfold dictReplace
        exact List.map_congr_left (fun p _ => by rw [stepEntry, if_pos hc])
      · rw [if_neg hc]
        have hstep : stepEntry np = fun p => p :=
          funext (fun p => by simp [stepEntry, hc])
        rw [hstep]
        simp
    rw [replace_parameters_cons, hone, ih, List.map_map]
    rfl

theorem foldl_stepEntry_not_mem (ps : List (String × PyObj)) (q : String × Ann)
    (h : q.1 ∉ ps.map Prod.fst) :
    ps.foldl (fun r np => stepEntry np r) q = q := by
  induction ps with
  | nil => rfl
  | cons np rest ih =>
    have h1 : q.1 ≠ np.1 := by
      intro he; exact h (by simp [he])
    have h2 : q.1 ∉ rest.map Prod.fst := by
      intro hm; exact h (by simp [hm])
    have hq : stepEntry np q = q := by
      simp [stepEntry, h1]
    rw [List.foldl_cons, hq, ih h2]

theorem lookup_cons_self {β : Type} (k : String) (v : β) (rest : List (String × β))
    (p : String) (hk : p = k) : ((k, v) :: rest).lookup p = some v := by
  simp [List.lookup, hk]

theorem lookup_cons_ne {β : Type} (k : String) (v : β) (rest : List (String × β))
    (p : String) (hk : p ≠ k) : ((k, v) :: rest).lookup p = rest.lookup p := by
  have : (p == k) = false := by simpa using hk
  simp [List.lookup, this]

theorem foldl_stepEntry_spec (ps : List (String × PyObj)) (p : String × Ann)
    (hnd : (ps.map Prod.fst).Nodup) :
    ps.foldl (fun r np => stepEntry np r) p = replaceParamSpec ps p := by
  induction ps with
  | nil => rfl
  | cons np rest ih =>
    rw [List.map_cons, List.nodup_cons] at hnd
    obtain ⟨hnp, hrest⟩ := hnd
    rw [List.foldl_cons]
    by_cases hk : p.1 = np.1
    · have hnr : p.1 ∉ rest.map Prod.fst := by rw [hk]; exact hnp
      have hl : (np :: rest).lookup p.1 = some np.2 :=
        lookup_cons_self np.1 np.2 rest p.1 hk
      by_cases hc : (is_converter np.2 && !np.2.hasTransformerAttr) = true
      · have hstep : stepEntry np p = (p.1, Ann.converterTransformer np.2) := by
          simp [stepEntry, hc, hk]
        rw [hstep,
          foldl_stepEntry_not_mem rest (p.1, Ann.converterTransformer np.2) hnr]
        simp [replaceParamSpec, hl, hc]
      · have hstep : stepEntry np p = p := by simp [stepEntry, hc]
        rw [hstep, foldl_stepEntry_not_mem rest p hnr]
        simp [replaceParamSpec, hl, hc]
    · have hstep : stepEntry np p = p := by simp [stepEntry, hk]
      have hl : (np :: rest).lookup p.1 = rest.lookup p.1 :=
        lookup_cons_ne np.1 np.2 rest p.1 hk
      rw [hstep, ih hrest]
      simp [replaceParamSpec, hl]

theorem replaceParamSpec_fst (ps : List (String × PyObj)) (p : String × Ann) :
    (replaceParamSpec ps p).1 = p.1 := by
  unfold replaceParamSpec
  cases h : ps.lookup p.1 with
  | none => rfl
  | some conv => by_cases hc : (is_converter conv && !conv.hasTransformerAttr) = true <;>
      simp [hc]

end Hybrid

/-- Claim C1: under the structured path, the permission checks of
`HybridAppCommand._check_can_run` run in the fixed order global-once,
global, parent interaction (when the parent exists and is not the binding),
binding interaction (when present), binding local (when overridden),
adapter checks, wrapper checks; the function returns `false` at the first
failing applicable check with no later check executed, and returns `true`
exactly when every applicable check passes.  Formally: the transliterated
`check_can_run` equals the short-circuit run of the ordered stage table;
the table lists the seven check points in that order; the result is `true`
iff all applicable stages pass; and whenever a stage is the first
applicable failing one, the result is `false` and the executed trace stops
at that stage. -/
theorem C1_check_chain_order (e : Hybrid.CheckEnv) :
    Hybrid.check_can_run e = (Hybrid.runChain (Hybrid.stageTable e)).1
    ∧ (Hybrid.stageTable e).map (fun s => s.stage) =
        [.globalOnce, .globalCheck, .parentInteraction, .bindingInteraction,
         .bindingLocal, .adapterChecks, .wrapperChecks]
    ∧ (Hybrid.check_can_run e = true ↔
        ∀ s ∈ Hybrid.stageTable e, s.applicable = true → s.passes = true)
    ∧ (∀ l₁ s l₂, Hybrid.stageTable e = l₁ ++ s :: l₂ →
        (∀ t ∈ l₁, t.applicable = true → t.passes = true) →
        s.applicable = true → s.passes = false →
        Hybrid.check_can_run e = false ∧
        (Hybrid.runChain (Hybrid.stageTable e)).2 =
          (l₁.filter (fun t => t.applicable)).map (fun t => t.stage) ++ [s.stage])
    ∧ ((∀ s ∈ Hybrid.stageTable e, s.applicable = true → s.passes = true) →
        (Hybrid.runChain (Hybrid.stageTable e)).2 =
          ((Hybrid.stageTable e).filter (fun s => s.applicable)).map (fun s => s.stage)) := by
  refine ⟨Hybrid.check_can_run_eq_runChain e, rfl, ?_, ?_, ?_⟩
  · rw [Hybrid.check_can_run_eq_runChain, Hybrid.runChain_fst]
    simp only [List.all_eq_true, Bool.or_eq_true, Bool.not_eq_true']
    constructor
    · intro h s hs hap
      rcases h s hs with hfalse | htrue
      · rw [hap] at hfalse; cases hfalse
      · exact htrue
    · intro h s hs
      cases hap : s.applicable with
      | false => exact Or.inl rfl
      | true => exact Or.inr (h s hs hap)
  · intro l₁ s l₂ heq hpre hap hps
    have hrun := Hybrid.runChain_first_fail l₁ s l₂ hpre hap hps
    refine ⟨?_, ?_⟩
    · rw [Hybrid.check_can_run_eq_runChain, heq, hrun]
    · rw [heq, hrun]
  · intro h
    rw [Hybrid.runChain_all_pass _ h]

/-- Witness for C1 at a concrete environment: the first two global checks
pass, the parent interaction check fails, and the invocation returns
`false` having executed exactly the first three stages. -/
theorem C1_check_chain_order_witness :
    Hybrid.check_can_run Hybrid.envParentFail = false ∧
    (Hybrid.runChain (Hybrid.stageTable Hybrid.envParentFail)).2 =
      [.globalOnce, .globalCheck, .parentInteraction] := by
  have h := (C1_check_chain_order Hybrid.envParentFail).2.2.2.1
    [⟨.globalOnce, true, true⟩, ⟨.globalCheck, true, true⟩]
    ⟨.parentInteraction, true, false⟩
    [⟨.bindingInteraction, false, false⟩, ⟨.bindingLocal, false, true⟩,
     ⟨.adapterChecks, true, true⟩, ⟨.wrapperChecks, false, true⟩]
    (by decide) (by decide) (by decide) (by decide)
  exact ⟨h.1, by rw [h.2]; rfl⟩

/-- Claim C2: exceptions raised during a structured-path invocation are
classified as follows: a signature-mismatch error is re-raised unchanged; a
transformer error whose cause is a command-level error is unwrapped to that
cause; any other app-command error (a transformer error with a
non-command-level cause included) is wrapped into `HybridCommandError`
with the original retained as its cause; a command-level error is kept
unchanged. -/
theorem C2_exception_classification :
    (Hybrid.invoke_with_namespace (.raised .commandSignatureMismatch) =
        .reraised .commandSignatureMismatch)
    ∧ (∀ t, Hybrid.invoke_with_namespace (.raised (.transformerError (.commandError t))) =
        .dispatched (.commandError t))
    ∧ (∀ c, (∀ t, c ≠ Hybrid.TransformerCause.commandError t) →
        Hybrid.invoke_with_namespace (.raised (.transformerError c)) =
          .dispatched (.hybridCommandError (.transformerError c) (.transformerError c)))
    ∧ (∀ t, Hybrid.invoke_with_namespace (.raised (.appCommandError t)) =
        .dispatched (.hybridCommandError (.appCommandError t) (.appCommandError t)))
    ∧ (∀ t, Hybrid.invoke_with_namespace (.raised (.commandError t)) =
        .dispatched (.commandError t)) := by
  refine ⟨rfl, fun t => rfl, ?_, fun t => rfl, fun t => rfl⟩
  intro c hc
  cases c with
  | commandError t => exact absurd rfl (hc t)
  | otherExc t => rfl
  | noCause => rfl

/-- Witness for C2: the non-command-level-cause case evaluated at a
concrete transformer error whose cause is the plain exception tagged 5. -/
theorem C2_exception_classification_witness :
    Hybrid.invoke_with_namespace (.raised (.transformerError (.otherExc 5))) =
      .dispatched (.hybridCommandError (.transformerError (.otherExc 5))
        (.transformerError (.otherExc 5))) :=
  C2_exception_classification.2.2.1 (.otherExc 5)
    (fun _ h => Hybrid.TransformerCause.noConfusion h)

/-- Claim C4: every structured-path failure other than the
signature-mismatch developer error is handed to the wrapper error-dispatch
sink (`self.wrapped.dispatch_error`) and is not re-raised to the structured
caller; only the signature-mismatch error is ever re-raised. -/
theorem C4_dispatch_not_reraise (e : Hybrid.RaisedExc) :
    (e ≠ .commandSignatureMismatch →
      ∃ h, Hybrid.invoke_with_namespace (.raised e) = .dispatched h)
    ∧ (∀ r, Hybrid.invoke_with_namespace (.raised e) = .reraised r →
        e = .commandSignatureMismatch ∧ r = .commandSignatureMismatch) := by
  cases e with
  | commandSignatureMismatch =>
    refine ⟨fun h => absurd rfl h, fun r hr => ?_⟩
    simp only [Hybrid.invoke_with_namespace, Hybrid.InvokeResult.reraised.injEq] at hr
    exact ⟨rfl, hr.symm⟩
  | transformerError c =>
    refine ⟨fun _ => ?_, fun r hr => ?_⟩
    · cases c with
      | commandError _ => exact ⟨_, rfl⟩
      | otherExc _ => exact ⟨_, rfl⟩
      | noCause => exact ⟨_, rfl⟩
    · cases c <;> cases hr
  | appCommandError _ => exact ⟨fun _ => ⟨_, rfl⟩, fun r hr => by cases hr⟩
  | commandError _ => exact ⟨fun _ => ⟨_, rfl⟩, fun r hr => by cases hr⟩

/-- Witness for C4 at the concrete app-command error tagged 3: it is
dispatched, not re-raised. -/
theorem C4_dispatch_not_reraise_witness :
    ∃ h, Hybrid.invoke_with_namespace (.raised (.appCommandError 3)) = .dispatched h :=
  (C4_dispatch_not_reraise (.appCommandError 3)).1
    (fun h => Hybrid.RaisedExc.noConfusion h)

/-- Claim C5: adding a sub-group to a group that itself has a parent fails
with the nesting `ValueError`, and neither the wrapper-side command mapping
nor the structured-side children are mutated: the state returned alongside
the error is the input state. -/
theorem C5_nesting_rejected (g : Hybrid.GroupState) (c : Hybrid.HCmd)
    (hg : c.isGroup = true) (hp : g.hasParent = true) :
    Hybrid.add_command g c = (some .tooNested, g) := by
  simp [Hybrid.add_command, hg, hp]

/-- Witness for C5: a sub-group added to a one-level-deep group is
rejected with the state untouched. -/
theorem C5_nesting_rejected_witness :
    Hybrid.add_command ⟨true, [], []⟩ ⟨7, "sub", [], true⟩ =
      (some .tooNested, ⟨true, [], []⟩) :=
  C5_nesting_rejected ⟨true, [], []⟩ ⟨7, "sub", [], true⟩ rfl rfl

/-- Claim C8: removing a registered name from a group returns the wrapper
registered under it and removes the entry from both the wrapper-side
command mapping and the structured-side children. -/
theorem C8_remove_both_sides (g : Hybrid.GroupState) (k : String) (c : Hybrid.HCmd)
    (h : g.all_commands.lookup k = some c) :
    (Hybrid.remove_command g k).1 = some c
    ∧ (Hybrid.remove_command g k).2.all_commands.lookup k = none
    ∧ (Hybrid.remove_command g k).2.appChildren.lookup k = none := by
  refine ⟨?_, ?_, ?_⟩
  · simpa [Hybrid.remove_command, Hybrid.super_remove_command] using h
  · simp [Hybrid.remove_command, Hybrid.super_remove_command, Hybrid.lookup_dictErase]
  · simp [Hybrid.remove_command, Hybrid.appGroup_remove, Hybrid.lookup_dictErase]

/-- Witness for C8: removing x from the populated group returns the
command registered under x and clears x on both sides. -/
theorem C8_remove_both_sides_witness :
    (Hybrid.remove_command Hybrid.groupWithAlias "x").1 = some ⟨1, "x", ["y"], false⟩
    ∧ (Hybrid.remove_command Hybrid.groupWithAlias "x").2.all_commands.lookup "x" = none
    ∧ (Hybrid.remove_command Hybrid.groupWithAlias "x").2.appChildren.lookup "x" = none :=
  C8_remove_both_sides Hybrid.groupWithAlias "x" ⟨1, "x", ["y"], false⟩ (by decide)

/-- Counterexample to C3 as stated: adding a command named y to a group
whose dict already maps y (as an alias of the command x) succeeds on the
structured side first, then raises the duplicate-name registration error
with no rollback, leaving y registered on the structured side: the claimed
undoing of the mirrored addition does not happen. -/
theorem C3_counterexample :
    (Hybrid.add_command Hybrid.groupWithAlias Hybrid.cmdNamedY).1 =
        some (.registrationConflict "y")
    ∧ (Hybrid.add_command Hybrid.groupWithAlias Hybrid.cmdNamedY).2.appChildren.lookup "y" =
        some 2 := by
  constructor <;> rfl

/-- Claim C3 amended: a duplicate name or alias raises a
registration-conflict error; on an alias conflict after the name succeeded,
the just-added name entry is removed on both the wrapper side and the
structured side before the error is raised; on a duplicate name, however,
the wrapper-side mapping is left unchanged and the structured-side addition
is NOT undone: the adapter stays registered under the new name. -/
theorem C3_add_conflict_rollback (g : Hybrid.GroupState) (c : Hybrid.HCmd) :
    (∀ a, (Hybrid.add_command g c).1 = some (.aliasConflict a) →
      (Hybrid.add_command g c).2.all_commands.lookup c.name = none ∧
      (Hybrid.add_command g c).2.appChildren.lookup c.name = none)
    ∧ (∀ n, (Hybrid.add_command g c).1 = some (.registrationConflict n) →
      n = c.name ∧
      (Hybrid.add_command g c).2.all_commands = g.all_commands ∧
      (Hybrid.add_command g c).2.appChildren.lookup c.name = some c.id) := by
  by_cases hng : (c.isGroup && g.hasParent) = true
  · constructor
    · intro a h; simp [Hybrid.add_command, hng] at h
    · intro n h; simp [Hybrid.add_command, hng] at h
  · cases happ : Hybrid.appGroup_add g.appChildren c.name c.id with
    | error u =>
      constructor
      · intro a h; simp [Hybrid.add_command, hng, happ] at h
      · intro n h; simp [Hybrid.add_command, hng, happ] at h
    | ok app1 =>
      obtain ⟨hnone, happx⟩ := Hybrid.appGroup_add_ok _ _ _ _ happ
      by_cases hdup : ((g.all_commands).lookup c.name).isSome
      · have hadd : Hybrid.add_command g c =
            (some (.registrationConflict c.name),
             { hasParent := g.hasParent, all_commands := g.all_commands,
               appChildren := app1 }) := by
          simp [Hybrid.add_command, hng, happ, hdup]
        constructor
        · intro a h; rw [hadd] at h; simp at h
        · intro n h
          rw [hadd] at h
          simp only [Option.some.injEq, Hybrid.AddErr.registrationConflict.injEq] at h
          subst happx
          refine ⟨h.symm, by rw [hadd], ?_⟩
          rw [hadd]
          exact Hybrid.lookup_append_single _ _ _ hnone
      · have hadd : Hybrid.add_command g c =
            Hybrid.addAliases
              { hasParent := g.hasParent, all_commands := g.all_commands ++ [(c.name, c)],
                appChildren := app1 } c c.aliases := by
          simp [Hybrid.add_command, hng, happ, hdup]
        constructor
        · intro a h
          rw [hadd] at h ⊢
          exact (Hybrid.addAliases_error c.aliases _ c _ h).2
        · intro n h
          rw [hadd] at h
          obtain ⟨⟨a, ha⟩, -, -⟩ := Hybrid.addAliases_error c.aliases _ c _ h
          exact absurd ha (by simp)

/-- Witness for C3 amended: the alias-conflict case at a command named w
with conflicting alias z (w is cleared on both sides), and the
duplicate-name case at the command named y (the structured side keeps y). -/
theorem C3_add_conflict_rollback_witness :
    ((Hybrid.add_command Hybrid.groupWithZ Hybrid.cmdAliasZ).2.all_commands.lookup "w" = none ∧
     (Hybrid.add_command Hybrid.groupWithZ Hybrid.cmdAliasZ).2.appChildren.lookup "w" = none)
    ∧ ("y" = "y" ∧
       (Hybrid.add_command Hybrid.groupWithAlias Hybrid.cmdNamedY).2.all_commands =
         Hybrid.groupWithAlias.all_commands ∧
       (Hybrid.add_command Hybrid.groupWithAlias Hybrid.cmdNamedY).2.appChildren.lookup "y" =
         some 2) :=
  ⟨(C3_add_conflict_rollback Hybrid.groupWithZ Hybrid.cmdAliasZ).1 "z" (by decide),
   (C3_add_conflict_rollback Hybrid.groupWithAlias Hybrid.cmdNamedY).2 "y" (by decide)⟩

/-- Claim C6: the synthesized converter transformer executes the original
conversion helper (under the guard that the object is a recognized
converter, one of the call branches runs and the result is determined by
the helper outcome); a command-level error raised by the helper propagates
unchanged; any other exception becomes a conversion-failure error carrying
the original converter and the original exception as its cause. -/
theorem C6_transform_classification (c : Hybrid.ConvModel)
    (h : Hybrid.is_converter c.obj = true) :
    Hybrid.transform c = Hybrid.convertHandle c c.convertResult
    ∧ (∀ v, c.convertResult = .ok v → Hybrid.transform c = .ok (some v))
    ∧ (∀ t, c.convertResult = .commandErrorExc t → Hybrid.transform c = .commandError t)
    ∧ (∀ t, c.convertResult = .otherExc t →
        Hybrid.transform c = .conversionError c.obj t) := by
  have hcall : Hybrid.transform c = Hybrid.convertHandle c c.convertResult := by
    unfold Hybrid.transform
    by_cases h1 : (c.obj.isClass && c.obj.subclassOfConverter) = true
    · simp [h1]
    · have hor : (c.obj.isClass && c.obj.subclassOfConverter) = true ∨
          c.obj.instanceOfConverter = true := by
        simpa [Hybrid.is_converter] using h
      have h2 : c.obj.instanceOfConverter = true := by
        rcases hor with h' | h'
        · exact absurd h' h1
        · exact h'
      simp [h1, h2]
  refine ⟨hcall, ?_, ?_, ?_⟩ <;> intro x hx <;> rw [hcall, hx] <;> rfl

/-- Witness for C6: a converter instance whose helper raises the plain
exception tagged 4 produces the conversion error carrying that converter
and cause 4. -/
theorem C6_transform_classification_witness :
    Hybrid.transform ⟨⟨9, false, false, true, false⟩, false, .otherExc 4⟩ =
      .conversionError ⟨9, false, false, true, false⟩ 4 :=
  (C6_transform_classification ⟨⟨9, false, false, true, false⟩, false, .otherExc 4⟩
    (by decide)).2.2.2 4 rfl

/-- Claim C7: parameter replacement substitutes a synthesized transformer
annotation for exactly those signature entries whose command parameter has
a converter recognized by `is_converter` and lacking the
`__discord_app_commands_transformer__` attribute; every other entry is
returned unchanged, and the names come back in their original order.  The
command parameter dict has unique keys (it is a Python dict). -/
theorem C7_replace_parameters (ps : List (String × Hybrid.PyObj))
    (sig : List (String × Hybrid.Ann)) (hnd : (ps.map Prod.fst).Nodup) :
    Hybrid.replace_parameters ps sig = Hybrid.replace_parameters_spec ps sig
    ∧ (Hybrid.replace_parameters ps sig).map Prod.fst = sig.map Prod.fst := by
  have heq : Hybrid.replace_parameters ps sig = Hybrid.replace_parameters_spec ps sig := by
    rw [Hybrid.replace_parameters_as_map]
    exact List.map_congr_left (fun p _ => Hybrid.foldl_stepEntry_spec ps p hnd)
  refine ⟨heq, ?_⟩
  rw [heq]
  unfold Hybrid.replace_parameters_spec
  rw [List.map_map]
  exact List.map_congr_left (fun p _ => Hybrid.replaceParamSpec_fst ps p)

/-- Witness for C7: two command parameters, one a converter class without
the transformer attribute (replaced) and one an ordinary object (kept),
over a three-entry signature: code result equals the per-entry
specification and the names keep their order. -/
theorem C7_replace_parameters_witness :
    Hybrid.replace_parameters
        [("a", ⟨10, true, true, false, false⟩), ("b", ⟨11, false, false, false, false⟩)]
        [("a", .orig 1), ("b", .orig 2), ("c", .orig 3)] =
      Hybrid.replace_parameters_spec
        [("a", ⟨10, true, true, false, false⟩), ("b", ⟨11, false, false, false, false⟩)]
        [("a", .orig 1), ("b", .orig 2), ("c", .orig 3)]
    ∧ (Hybrid.replace_parameters
        [("a", ⟨10, true, true, false, false⟩), ("b", ⟨11, false, false, false, false⟩)]
        [("a", .orig 1), ("b", .orig 2), ("c", .orig 3)]).map Prod.fst =
      [("a", Hybrid.Ann.orig 1), ("b", .orig 2), ("c", .orig 3)].map Prod.fst :=
  C7_replace_parameters
    [("a", ⟨10, true, true, false, false⟩), ("b", ⟨11, false, false, false, false⟩)]
    [("a", .orig 1), ("b", .orig 2), ("c", .orig 3)] (by decide)

/-- Claim C9: the adapter created for a hybrid command wrapper and the one
created for a hybrid group wrapper carry the wrapper name and a
description mirroring the wrapper description, falling back to the short
doc and then to the placeholder when empty; the two constructors use the
same formula.  These attributes are set only at construction in the
module, so the mirroring holds whenever the pair exists. -/
theorem C9_adapter_mirrors_wrapper (w : Hybrid.WrapperAttrs) (cog : Option Nat) :
    (Hybrid.hybridAppCommandInit w cog).name = w.name
    ∧ (Hybrid.hybridGroupAppInit w).name = w.name
    ∧ (Hybrid.hybridAppCommandInit w cog).description =
        (if w.description ≠ "" then w.description
         else if w.short_doc ≠ "" then w.short_doc else "…")
    ∧ (Hybrid.hybridGroupAppInit w).description =
        (Hybrid.hybridAppCommandInit w cog).description := by
  refine ⟨rfl, rfl, ?_, rfl⟩
  unfold Hybrid.hybridAppCommandInit Hybrid.pyOrStr
  by_cases h1 : w.description = ""
  · by_cases h2 : w.short_doc = "" <;> simp [h1, h2, String.isEmpty_iff]
  · simp [h1, String.isEmpty_iff]

/-- Claim C10: after construction and after every sequence of assignments
through the `cog` setter, the wrapper `_cog` and the adapter `binding`
refer to the same object; the setter updates both together. -/
theorem C10_cog_binding_sync (c0 : Option Nat) (updates : List (Option Nat)) :
    (Hybrid.hybridCommandInit c0).cog = (Hybrid.hybridCommandInit c0).binding
    ∧ (updates.foldl Hybrid.cogSet (Hybrid.hybridCommandInit c0)).cog =
        (updates.foldl Hybrid.cogSet (Hybrid.hybridCommandInit c0)).binding := by
  refine ⟨rfl, ?_⟩
  have key : ∀ (l : List (Option Nat)) (s : Hybrid.CogPair), s.cog = s.binding →
      (l.foldl Hybrid.cogSet s).cog = (l.foldl Hybrid.cogSet s).binding := by
    intro l
    induction l with
    | nil => exact fun s hs => hs
    | cons v rest ih => exact fun s _ => ih (Hybrid.cogSet s v) rfl
  exact key updates _ rfl

/-- Witness for C9 at a wrapper with empty description and nonempty short
doc: both adapters take the name and fall back to the short doc. -/
theorem C9_adapter_mirrors_wrapper_witness :
    (Hybrid.hybridAppCommandInit ⟨"cmd", "", "doc"⟩ (some 2)).name = "cmd"
    ∧ (Hybrid.hybridGroupAppInit ⟨"cmd", "", "doc"⟩).name = "cmd"
    ∧ (Hybrid.hybridAppCommandInit ⟨"cmd", "", "doc"⟩ (some 2)).description =
        (if "" ≠ "" then "" else if "doc" ≠ "" then "doc" else "…")
    ∧ (Hybrid.hybridGroupAppInit ⟨"cmd", "", "doc"⟩).description =
        (Hybrid.hybridAppCommandInit ⟨"cmd", "", "doc"⟩ (some 2)).description :=
  C9_adapter_mirrors_wrapper ⟨"cmd", "", "doc"⟩ (some 2)

/-- Witness for C10 at a concrete construction cog and two setter calls. -/
theorem C10_cog_binding_sync_witness :
    (Hybrid.hybridCommandInit (some 1)).cog = (Hybrid.hybridCommandInit (some 1)).binding
    ∧ ([some 2, none].foldl Hybrid.cogSet (Hybrid.hybridCommandInit (some 1))).cog =
        ([some 2, none].foldl Hybrid.cogSet (Hybrid.hybridCommandInit (some 1))).binding :=
  C10_cog_binding_sync (some 1) [some 2, none]
